import Mathlib

/-!
Verification of the résumé-analysis pipeline of `src/app.py`.

The file embeds the three pieces of the program that the claims are about:

* the document text extractors `extract_text_from_pdf` / `extract_text_from_docx`;
* the Analysis Client `get_gemini_analysis` with its retry-with-backoff loop,
  envelope check and JSON parse of the embedded text;
* the module-level upload handler and analysis-button handler, including the
  result-rendering block.

Python dynamic values decoded from JSON are modelled by `JsonVal`; Python
truthiness, dict lookup, iteration and the division used by the renderer are
modelled explicitly so that the places where the script would raise an
unhandled exception are visible as a distinguished outcome.
-/

namespace RrhhOptimize

/-- JSON values, as produced by Python `json.loads` and `response.json()`. -/
inductive JsonVal where
  | null
  | bool (b : Bool)
  | num (n : Int)
  | str (s : String)
  | arr (elems : List JsonVal)
  | obj (fields : List (String × JsonVal))

/-- Python truthiness of a JSON-decoded value (`if result.get(...)`):
`None`, `False`, `0`, `""`, `[]` and an empty dict are falsy. -/
def truthy : JsonVal → Bool
  | .null => false
  | .bool b => b
  | .num n => n != 0
  | .str s => !s.isEmpty
  | .arr elems => !elems.isEmpty
  | .obj fields => !fields.isEmpty

/-- Python dict lookup for an object decoded from JSON (`d.get(key)` /
`d[key]`); keys are assumed distinct, as `json.loads` produces. -/
def lookupField : List (String × JsonVal) → String → Option JsonVal
  | [], _ => none
  | (k, v) :: rest, key => if k = key then some v else lookupField rest key

/-- Result of one network attempt, as distinguished by the `try` block of
`get_gemini_analysis`: a `requests.exceptions.RequestException` (connection
error, or a non-2xx status surfaced by `raise_for_status`), or a 2xx response
whose JSON body is `body`. -/
inductive Response where
  | netError
  | ok (body : JsonVal)

/-- Outcome of evaluating the envelope check of `get_gemini_analysis`
(lines 118-123 of `src/app.py`):
`okText t` — the guard passed and `result["candidates"][0]["content"]["parts"][0]["text"]`
evaluated to `t`; `reported` — the guard was falsy, `st.error` shown and
`None` returned; `raised` — an uncaught Python exception (`AttributeError`,
`KeyError`, `TypeError`) from indexing or `.get` on a wrongly-typed value. -/
inductive EnvStep where
  | okText (t : JsonVal)
  | reported
  | raised

/-- The envelope check: traces
`if result.get("candidates") and result["candidates"][0].get("content") and
result["candidates"][0]["content"].get("parts"):` and the subsequent indexing
`result["candidates"][0]["content"]["parts"][0]["text"]` with Python
semantics on a `JsonVal`. -/
def extractEnvelopeText (result : JsonVal) : EnvStep :=
  match result with
  | .obj fs =>
    match lookupField fs "candidates" with
    | none => .reported
    | some cands =>
      if truthy cands then
        match cands with
        | .arr (c0 :: _) =>
          match c0 with
          | .obj cfs =>
            match lookupField cfs "content" with
            | none => .reported
            | some content =>
              if truthy content then
                match content with
                | .obj confs =>
                  match lookupField confs "parts" with
                  | none => .reported
                  | some parts =>
                    if truthy parts then
                      match parts with
                      | .arr (p0 :: _) =>
                        match p0 with
                        | .obj pfs =>
                          match lookupField pfs "text" with
                          | some t => .okText t
                          | none => .raised
                        | _ => .raised
                      | _ => .raised
                    else .reported
                | _ => .raised
              else .reported
          | _ => .raised
        | _ => .raised
      else .reported
  | _ => .raised

/-- Kind of reported (returned-`None`-with-message) failure of the client. -/
inductive FailKind where
  | exhausted
  | badEnvelope
  | jsonDecode

/-- What a call to `get_gemini_analysis` does in the end: return a parsed
value, return `None` after showing a message, or let an uncaught Python
exception propagate out of the coroutine. -/
inductive ClientOutcome where
  | success (v : JsonVal)
  | failure (k : FailKind)
  | crash

/-- Instrumented result of a client call: the outcome, the number of network
attempts performed, and the list of back-off sleeps, in order. -/
structure RunResult where
  outcome : ClientOutcome
  attempts : Nat
  waits : List Nat

/-- Handling of a 2xx JSON body inside the `try` block: envelope check, then
`json.loads(json_string)`. `loads` models Python `json.loads` on the embedded
text (`none` = `json.JSONDecodeError`, caught and reported); calling
`json.loads` on a non-string raises `TypeError`, which no `except` clause
catches. -/
def handleBody (loads : String → Option JsonVal) (body : JsonVal) : ClientOutcome :=
  match extractEnvelopeText body with
  | .reported => .failure .badEnvelope
  | .raised => .crash
  | .okText (JsonVal.str s) =>
    match loads s with
    | some v => .success v
    | none => .failure .jsonDecode
  | .okText _ => .crash

/-- The retry loop of `get_gemini_analysis` (`while retries < max_retries`).
`r` is the current value of `retries`, `gas = max_retries - retries` the
remaining loop iterations. On a `RequestException` the code increments
`retries` and then sleeps `2 ** retries` — i.e. `2 ^ (r + 1)` — before the
loop condition is re-tested, so the sleep happens even after the final failed
attempt. `env n` is the result of the network attempt made when `retries = n`. -/
def geminiLoop (env : Nat → Response) (loads : String → Option JsonVal) :
    Nat → Nat → RunResult
  | r, 0 => ⟨.failure .exhausted, r, []⟩
  | r, gas + 1 =>
    match env r with
    | .netError =>
      let rest := geminiLoop env loads (r + 1) gas
      ⟨rest.outcome, rest.attempts, 2 ^ (r + 1) :: rest.waits⟩
    | .ok body => ⟨handleBody loads body, r + 1, []⟩

/-- The client call: `retries = 0`, `max_retries = 5`. -/
def get_gemini_analysis (env : Nat → Response) (loads : String → Option JsonVal) :
    RunResult :=
  geminiLoop env loads 0 5

/-- A PDF byte stream as seen through `PyPDF2.PdfReader`: either the reader
constructor raises (corrupt/encrypted document), or it yields the list of
pages, each page giving what `page.extract_text()` returns — `some` text or
`none` (Python `None`). -/
inductive PdfFile where
  | corrupt
  | pages (ps : List (Option String))

/-- `extract_text_from_pdf` (lines 12-25): `text += page.extract_text() or ""`
over the pages in order inside a `try`; any exception yields `None`. -/
def extract_text_from_pdf : PdfFile → Option String
  | .corrupt => none
  | .pages ps => some (ps.foldl (fun text p => text ++ p.getD "") "")

/-- A DOCX byte stream as seen through `docx.Document`: either the constructor
raises, or it yields the paragraphs' texts in document order. -/
inductive DocxFile where
  | corrupt
  | paragraphs (ps : List String)

/-- `extract_text_from_docx` (lines 27-40): `text += paragraph.text + "\n"`
over the paragraphs in order inside a `try`; any exception yields `None`. -/
def extract_text_from_docx : DocxFile → Option String
  | .corrupt => none
  | .paragraphs ps => some (ps.foldl (fun text p => text ++ (p ++ "\n")) "")

/-- Message shown by the upload handler (lines 160-166). -/
inductive UploadMsg where
  | successMsg
  | extractionErrorMsg

/-- Python truthiness of the `cv_text` variable: `None` and `""` are falsy. -/
def pyTruthyOptStr : Option String → Bool
  | none => false
  | some s => !s.isEmpty

/-- The upload handler's `if cv_text: ... else: st.error(...)`. -/
def uploadMessage (cv_text : Option String) : UploadMsg :=
  if pyTruthyOptStr cv_text then .successMsg else .extractionErrorMsg

/-- What the analysis-button handler does first (lines 180-183, 233-234):
either it proceeds to the API call, or it shows the missing-input warning. -/
inductive ButtonAction where
  | callApi
  | missingInputWarning

/-- `if cv_text and job_description:` — the API call is made only when both
are truthy, otherwise `st.warning(...)`. -/
def buttonAction (cv_text : Option String) (job_description : String) : ButtonAction :=
  if pyTruthyOptStr cv_text && !job_description.isEmpty then .callApi
  else .missingInputWarning

/-- Python iteration `for x in y` over a JSON-decoded value: a list yields its
elements, a string its characters (as one-character strings), a dict its keys;
`None`, numbers and booleans raise `TypeError` (`none`). -/
def pyIterable : JsonVal → Option (List JsonVal)
  | .arr elems => some elems
  | .str s => some (s.toList.map (fun c => .str (String.singleton c)))
  | .obj fields => some (fields.map (fun kv => .str kv.fst))
  | _ => none

/-- Whether `x / 10.0` is defined in Python for a JSON-decoded `x`: numbers
and booleans divide, everything else raises `TypeError`. -/
def pyDividesByTen : JsonVal → Bool
  | .num _ => true
  | .bool _ => true
  | _ => false

/-- Whether a JSON-decoded value is a Python dict (supports `.get`). -/
def isDict : JsonVal → Bool
  | .obj _ => true
  | _ => false

/-- Outcome of the result-rendering block (lines 192-232): the report is
rendered, the `else` branch's error message is shown, or an uncaught
exception is raised. -/
inductive RenderStep where
  | rendered
  | noResultError
  | raisedError

/-- The value interpolated into `f"Puntuación de Afinidad: {affinity_score}/10"`
(line 201): `analysis_result.get("affinity_score", "N/A")`. -/
def displayedScore (fields : List (String × JsonVal)) : JsonVal :=
  (lookupField fields "affinity_score").getD (.str "N/A")

/-- The rendering block (lines 192-232), traced with Python semantics:
`if analysis_result:`; `.get` calls require a dict; `st.progress(affinity_score
/ 10.0)` raises `TypeError` on a non-number; the `for` loops over strengths,
weaknesses and interview questions require iterables, and each `qa.get(...)`
requires a dict. The `st.*` display calls themselves are the out-of-scope UI
framework and are treated as opaque, non-raising. -/
def renderResult (analysis_result : Option JsonVal) : RenderStep :=
  match analysis_result with
  | none => .noResultError
  | some r =>
    if truthy r then
      match r with
      | .obj fs =>
        if pyDividesByTen (displayedScore fs) then
          match pyIterable ((lookupField fs "strengths").getD (.arr [])) with
          | none => .raisedError
          | some _ =>
            match pyIterable ((lookupField fs "weaknesses").getD (.arr [])) with
            | none => .raisedError
            | some _ =>
              let interview_questions := (lookupField fs "interview_questions").getD (.arr [])
              if truthy interview_questions then
                match pyIterable interview_questions with
                | none => .raisedError
                | some items =>
                  if items.all isDict then .rendered else .raisedError
              else .rendered
        else .raisedError
      | _ => .raisedError
    else .noResultError

/-- The six field names listed as `required` in the request's response schema
(line 97 of `src/app.py`); stated from the spec's invariant for comparison
with what the client actually returns. -/
def requiredKeys : List String :=
  ["profile_analysis", "strengths", "weaknesses", "interview_questions",
   "affinity_score", "reasoning_score"]

/-- Whether a parsed result carries all six required fields. -/
def hasAllRequired : JsonVal → Bool
  | .obj fs => requiredKeys.all (fun k => (lookupField fs k).isSome)
  | _ => false

/-- Whether the client outcome is a reported (message + `None`) failure, as
opposed to a success or an uncaught exception. -/
def isReportedFailure : ClientOutcome → Bool
  | .failure _ => true
  | _ => false

/-- A well-shaped response envelope whose embedded text is `s`. -/
def goodEnvBody (s : String) : JsonVal :=
  .obj [("candidates", .arr [.obj [("content",
    .obj [("parts", .arr [.obj [("text", .str s)]])])]])]

/-- An environment where every attempt fails at the transport/HTTP level. -/
def envAllFail : Nat → Response := fun _ => .netError

/-- A `json.loads` that fails on every input (never consulted in the
all-transport-failure scenarios). -/
def loadsNone : String → Option JsonVal := fun _ => none

/-- The literal text `{}` — a JSON document that parses to an empty object. -/
def emptyObjText : String := "\x7b\x7d"

/-- Python `json.loads` restricted to the inputs of the empty-object scenario:
`{}` parses to the empty dict. -/
def loadsEmptyObj : String → Option JsonVal :=
  fun s => if s = emptyObjText then some (.obj []) else none

/-- Every attempt returns HTTP 200 with a well-shaped envelope embedding `{}`. -/
def envEmptyJson : Nat → Response := fun _ => .ok (goodEnvBody emptyObjText)

/-- A well-formed HTTP 200 JSON body that deviates from the envelope contract:
`parts[0]` is an object without a `"text"` key, so the script's
`...["parts"][0]["text"]` raises `KeyError`. -/
def badTypeBody : JsonVal :=
  .obj [("candidates", .arr [.obj [("content",
    .obj [("parts", .arr [.obj []])])]])]

/-- The literal text `{"profile_analysis": "x"}` — valid JSON missing the
other five required fields. -/
def noScoreText : String := "\x7b\"profile_analysis\": \"x\"\x7d"

/-- What `json.loads` produces for `noScoreText`. -/
def noScoreResult : JsonVal := .obj [("profile_analysis", .str "x")]

/-- Python `json.loads` restricted to the missing-score scenario. -/
def loadsNoScore : String → Option JsonVal :=
  fun s => if s = noScoreText then some noScoreResult else none

/-- A fully-populated analysis result whose `affinity_score` is 15, outside
the schema's declared range [1, 10]. -/
def fullResult15Fields : List (String × JsonVal) :=
  [("profile_analysis", .str "p"),
   ("strengths", .arr [.str "s1"]),
   ("weaknesses", .arr [.str "w1"]),
   ("interview_questions",
     .arr [.obj [("question", .str "q"), ("optimal_answer", .str "a")]]),
   ("affinity_score", .num 15),
   ("reasoning_score", .str "r")]

/-- The out-of-range result as a JSON value. -/
def fullResult15 : JsonVal := .obj fullResult15Fields

/-- The JSON text the service would embed for the out-of-range result. -/
def score15Text : String :=
  "\x7b\"profile_analysis\": \"p\", \"strengths\": [\"s1\"], \"weaknesses\": [\"w1\"], \"interview_questions\": [\x7b\"question\": \"q\", \"optimal_answer\": \"a\"\x7d], \"affinity_score\": 15, \"reasoning_score\": \"r\"\x7d"

/-- Python `json.loads` restricted to the out-of-range-score scenario. -/
def loadsScore15 : String → Option JsonVal :=
  fun s => if s = score15Text then some fullResult15 else none

/-- The client only consults the environment at the attempts it makes. -/
lemma geminiLoop_congr (loads : String → Option JsonVal) :
    ∀ (gas r : Nat) (env env' : Nat → Response),
      (∀ i, i < gas → env (r + i) = env' (r + i)) →
      geminiLoop env loads r gas = geminiLoop env' loads r gas
  | 0, _, _, _, _ => rfl
  | gas + 1, r, env, env', h => by
    have h0 : env r = env' r := by simpa using h 0 (Nat.succ_pos _)
    have ih := geminiLoop_congr loads gas (r + 1) env env' (fun i hi => by
      have := h (i + 1) (by omega)
      rw [show r + 1 + i = r + (i + 1) by omega]
      exact this)
    simp only [geminiLoop, h0, ih]

/-- The loop performs at most `gas` further attempts beyond the `r` already
counted. -/
lemma geminiLoop_attempts_le (env : Nat → Response) (loads : String → Option JsonVal) :
    ∀ (gas r : Nat), (geminiLoop env loads r gas).attempts ≤ r + gas
  | 0, r => by simp [geminiLoop]
  | gas + 1, r => by
    have ih := geminiLoop_attempts_le env loads gas (r + 1)
    rcases henv : env r with _ | body
    · simp only [geminiLoop, henv]
      omega
    · simp only [geminiLoop, henv]
      omega

/-- While the first `n + 1` attempts all fail at the transport level, the
`n`-th recorded sleep is `2 ^ (r + n + 1)` time units. -/
lemma geminiLoop_waits_get (loads : String → Option JsonVal) :
    ∀ (gas r : Nat) (env : Nat → Response) (n : Nat), n < gas →
      (∀ i, i ≤ n → env (r + i) = Response.netError) →
      (geminiLoop env loads r gas).waits[n]? = some (2 ^ (r + n + 1))
  | 0, _, _, n, hn, _ => absurd hn (Nat.not_lt_zero n)
  | gas + 1, r, env, n, hn, h => by
    have hr : env r = Response.netError := by simpa using h 0 (Nat.zero_le _)
    match n with
    | 0 => simp [geminiLoop, hr]
    | m + 1 =>
      have ih := geminiLoop_waits_get loads gas (r + 1) env m (by omega)
        (fun i hi => by
          have := h (i + 1) (by omega)
          rw [show r + 1 + i = r + (i + 1) by omega]
          exact this)
      simp only [geminiLoop, hr, List.getElem?_cons_succ]
      rw [ih]
      congr 2
      omega

/-- C1 (counterexample): the claim that every returned result carries all six
required fields is false — on a service response whose embedded text is `{}`,
the client returns the empty object as a success, which has none of the six
required fields. -/
theorem C1_cex :
    (get_gemini_analysis envEmptyJson loadsEmptyObj).outcome
        = ClientOutcome.success (JsonVal.obj [])
    ∧ hasAllRequired (JsonVal.obj []) = false :=
  ⟨rfl, rfl⟩

/-- C1 (amended): when the envelope yields a string, the client returns
whatever `json.loads` produces, unchanged and with no per-field validation —
so a result missing required fields is returned as a success; only a failure
of `json.loads` itself makes the whole result absent. -/
theorem C1_amended (env : Nat → Response) (loads : String → Option JsonVal)
    (body : JsonVal) (t : String)
    (h0 : env 0 = Response.ok body)
    (hx : extractEnvelopeText body = EnvStep.okText (JsonVal.str t)) :
    (∀ v, loads t = some v →
      (get_gemini_analysis env loads).outcome = ClientOutcome.success v)
    ∧ (loads t = none →
      (get_gemini_analysis env loads).outcome
        = ClientOutcome.failure FailKind.jsonDecode) := by
  have hstep : get_gemini_analysis env loads = ⟨handleBody loads body, 1, []⟩ := by
    show geminiLoop env loads 0 (4 + 1) = _
    simp [geminiLoop, h0]
  constructor
  · intro v hv
    rw [hstep]
    simp [handleBody, hx, hv]
  · intro hv
    rw [hstep]
    simp [handleBody, hx, hv]

/-- C1 (witness): the amended statement at the empty-object scenario. -/
theorem C1_witness :
    (get_gemini_analysis envEmptyJson loadsEmptyObj).outcome
        = ClientOutcome.success (JsonVal.obj [])
    ∧ hasAllRequired (JsonVal.obj []) = false :=
  ⟨(C1_amended envEmptyJson loadsEmptyObj (goodEnvBody emptyObjText) emptyObjText
      rfl rfl).1 (JsonVal.obj []) rfl, rfl⟩

/-- C2 (counterexample): with all five attempts failing at the transport
level, the cumulative wait is 2+4+8+16+32 = 62 time units over five sleeps —
not 2+4+8+16 over four — because the code sleeps once more after the final
failed attempt. -/
theorem C2_cex :
    (get_gemini_analysis envAllFail loadsNone).waits = [2, 4, 8, 16, 32]
    ∧ (get_gemini_analysis envAllFail loadsNone).waits.sum ≠ 2 + 4 + 8 + 16
    ∧ (get_gemini_analysis envAllFail loadsNone).waits.length ≠ 4 :=
  ⟨rfl, by decide, by decide⟩

/-- C2 (amended): when all 5 attempts fail with a transport/HTTP error, the
client terminates in the exhausted-retries failure state — producing no
result — after five waits of 2, 4, 8, 16 and 32 time units (one after every
failed attempt, the final one included), 62 in total. -/
theorem C2_amended (env : Nat → Response) (loads : String → Option JsonVal)
    (h : ∀ r, r < 5 → env r = Response.netError) :
    get_gemini_analysis env loads
      = ⟨ClientOutcome.failure FailKind.exhausted, 5, [2, 4, 8, 16, 32]⟩ := by
  have hc : get_gemini_analysis env loads = get_gemini_analysis envAllFail loads := by
    unfold get_gemini_analysis
    exact geminiLoop_congr loads 5 0 env envAllFail (fun i hi => by
      rw [show (0 : Nat) + i = i by omega]
      exact h i hi)
  rw [hc]
  rfl

/-- C2 (witness): the amended statement at the concrete all-503 environment. -/
theorem C2_witness :
    get_gemini_analysis envAllFail loadsNone
      = ⟨ClientOutcome.failure FailKind.exhausted, 5, [2, 4, 8, 16, 32]⟩ :=
  C2_amended envAllFail loadsNone (fun _ _ => rfl)

/-- C3 (counterexample): the wait after the first failed attempt (0-indexed
attempt 0) is 2 time units, not `2 ^ 0 = 1` as the claim states. -/
theorem C3_cex :
    (get_gemini_analysis envAllFail loadsNone).waits[0]? = some 2
    ∧ (2 : Nat) ≠ 2 ^ 0 :=
  ⟨rfl, by decide⟩

/-- C3 (amended): for every 0-indexed attempt `n` that fails with a
transport/HTTP-level failure, the client waits exactly `2 ^ (n + 1)` time
units before moving on — the code increments `retries` before computing
`2 ** retries`. -/
theorem C3_amended (env : Nat → Response) (loads : String → Option JsonVal)
    (n : Nat) (hn : n < 5) (h : ∀ i, i ≤ n → env i = Response.netError) :
    (get_gemini_analysis env loads).waits[n]? = some (2 ^ (n + 1)) := by
  have := geminiLoop_waits_get loads 5 0 env n hn (fun i hi => by
    rw [show (0 : Nat) + i = i by omega]
    exact h i hi)
  simpa using this

/-- C3 (witness): the amended statement at attempt 2 of the all-503
environment: the third sleep is `2 ^ 3 = 8`. -/
theorem C3_witness :
    (get_gemini_analysis envAllFail loadsNone).waits[2]? = some (2 ^ 3) :=
  C3_amended envAllFail loadsNone 2 (by omega) (fun _ _ => rfl)

/-- C4: the client makes at most 5 network attempts per invocation, and when
every attempt fails at the transport level it terminates in the
exhausted-retries failure, never returning an analysis result. -/
theorem C4_thm (env : Nat → Response) (loads : String → Option JsonVal) :
    (get_gemini_analysis env loads).attempts ≤ 5
    ∧ ((∀ r, r < 5 → env r = Response.netError) →
      (get_gemini_analysis env loads).outcome
        = ClientOutcome.failure FailKind.exhausted) := by
  constructor
  · simpa using geminiLoop_attempts_le env loads 5 0
  · intro h
    have hc : get_gemini_analysis env loads = get_gemini_analysis envAllFail loads := by
      unfold get_gemini_analysis
      exact geminiLoop_congr loads 5 0 env envAllFail (fun i hi => by
        rw [show (0 : Nat) + i = i by omega]
        exact h i hi)
    rw [hc]
    rfl

/-- C4 (witness): at the concrete all-failure environment, at most 5 attempts
and the exhausted-retries outcome. -/
theorem C4_witness :
    (get_gemini_analysis envAllFail loadsNone).attempts ≤ 5
    ∧ (get_gemini_analysis envAllFail loadsNone).outcome
        = ClientOutcome.failure FailKind.exhausted :=
  ⟨(C4_thm envAllFail loadsNone).1, (C4_thm envAllFail loadsNone).2 (fun _ _ => rfl)⟩

/-- C5 (counterexample): an HTTP-successful body whose `parts[0]` lacks the
`"text"` key deviates from the envelope shape, yet the client does not report
a terminal failure — it raises an uncaught `KeyError` (though indeed without
any further retry attempt). -/
theorem C5_cex :
    (get_gemini_analysis (fun _ => Response.ok badTypeBody) loadsNone).outcome
        = ClientOutcome.crash
    ∧ isReportedFailure
        (get_gemini_analysis (fun _ => Response.ok badTypeBody) loadsNone).outcome = false
    ∧ (get_gemini_analysis (fun _ => Response.ok badTypeBody) loadsNone).attempts = 1 :=
  ⟨rfl, rfl, rfl⟩

/-- C5 (amended): a deviation that makes the guard expression falsy (missing
or empty `candidates`, `content` or `parts`) is reported as an immediate
terminal failure with no retry; a deviation the guard does not cover (missing
`"text"` key, wrongly-typed nested values) instead raises an uncaught
exception — also terminal and without retry, but a crash rather than a
reported failure. -/
theorem C5_amended (env : Nat → Response) (loads : String → Option JsonVal)
    (body : JsonVal) (h0 : env 0 = Response.ok body) :
    (extractEnvelopeText body = EnvStep.reported →
      get_gemini_analysis env loads
        = ⟨ClientOutcome.failure FailKind.badEnvelope, 1, []⟩)
    ∧ (extractEnvelopeText body = EnvStep.raised →
      (get_gemini_analysis env loads).outcome = ClientOutcome.crash
      ∧ (get_gemini_analysis env loads).attempts = 1) := by
  have hstep : get_gemini_analysis env loads = ⟨handleBody loads body, 1, []⟩ := by
    show geminiLoop env loads 0 (4 + 1) = _
    simp [geminiLoop, h0]
  constructor
  · intro hx
    rw [hstep]
    simp [handleBody, hx]
  · intro hx
    rw [hstep]
    simp [handleBody, hx]

/-- C5 (witness): a body that is an empty object fails the guard and is
reported as a terminal failure after exactly one attempt. -/
theorem C5_witness :
    get_gemini_analysis (fun _ => Response.ok (JsonVal.obj [])) loadsNone
      = ⟨ClientOutcome.failure FailKind.badEnvelope, 1, []⟩ :=
  (C5_amended (fun _ => Response.ok (JsonVal.obj [])) loadsNone (JsonVal.obj []) rfl).1 rfl

/-- C6: the claim that no input or service response can make the client or
the rendering step raise an unhandled exception is contradicted by the code:
a service response whose embedded JSON is `{"profile_analysis": "x"}` is
returned as a success, and the rendering step then evaluates
`affinity_score / 10.0` with the string default `"N/A"`, raising an uncaught
`TypeError`. -/
theorem C6_bug :
    (get_gemini_analysis (fun _ => Response.ok (goodEnvBody noScoreText))
        loadsNoScore).outcome = ClientOutcome.success noScoreResult
    ∧ renderResult (some noScoreResult) = RenderStep.raisedError :=
  ⟨rfl, rfl⟩

set_option maxRecDepth 8000 in
/-- C7 (counterexample): for a fully-populated result with
`affinity_score = 15`, nothing in the implementation flags a contract
violation — the client returns it as an ordinary success, not as any reported
failure — even though 15 is outside [1, 10]. -/
theorem C7_cex :
    (get_gemini_analysis (fun _ => Response.ok (goodEnvBody score15Text))
        loadsScore15).outcome = ClientOutcome.success fullResult15
    ∧ isReportedFailure
        (get_gemini_analysis (fun _ => Response.ok (goodEnvBody score15Text))
          loadsScore15).outcome = false
    ∧ displayedScore fullResult15Fields = JsonVal.num 15
    ∧ ¬((1 : Int) ≤ 15 ∧ (15 : Int) ≤ 10) :=
  ⟨rfl, rfl, rfl, by decide⟩

/-- C7 (amended): the implementation raises no explicit contract-violation
flag for an out-of-range `affinity_score`; instead the raw score is passed
through unchanged to the display (never clamped into range), so an
out-of-range value remains visible out of range to the user. -/
theorem C7_amended (fields : List (String × JsonVal)) (n : Int)
    (h : lookupField fields "affinity_score" = some (JsonVal.num n)) :
    displayedScore fields = JsonVal.num n := by
  simp [displayedScore, h]

/-- C7 (witness): the out-of-range score 15 reaches the display unchanged. -/
theorem C7_witness : displayedScore fullResult15Fields = JsonVal.num 15 :=
  C7_amended fullResult15Fields 15 rfl

/-- C8: for every openable PDF, the extracted text is the ordered
concatenation of the pages' texts with the empty string substituted for a
page yielding no text, and only a total failure to open the document is an
extraction failure. -/
theorem C8_thm :
    (∀ ps : List (Option String),
      extract_text_from_pdf (PdfFile.pages ps)
        = some (String.join (ps.map (fun p => p.getD ""))))
    ∧ extract_text_from_pdf PdfFile.corrupt = none := by
  constructor
  · intro ps
    simp [extract_text_from_pdf, String.join, List.foldl_map]
  · rfl

/-- C9: for every openable DOCX, the extracted text is the ordered
concatenation of the paragraphs' texts, each followed by exactly one line
break, and a corrupt document yields a failure, never a partial string. -/
theorem C9_thm :
    (∀ ps : List String,
      extract_text_from_docx (DocxFile.paragraphs ps)
        = some (String.join (ps.map (fun p => p ++ "\n"))))
    ∧ extract_text_from_docx DocxFile.corrupt = none := by
  constructor
  · intro ps
    simp [extract_text_from_docx, String.join, List.foldl_map]
  · rfl

/-- C10: an extraction that succeeds with the empty string is treated exactly
like an extraction failure — the upload handler shows the extraction-failure
message and the analysis button shows the missing-input warning instead of
issuing an API call — matching the behaviour for a failed extraction. -/
theorem C10_thm :
    uploadMessage (some "") = UploadMsg.extractionErrorMsg
    ∧ uploadMessage (some "") = uploadMessage none
    ∧ (∀ jd : String, buttonAction (some "") jd = ButtonAction.missingInputWarning)
    ∧ (∀ jd : String, buttonAction (some "") jd = buttonAction none jd) :=
  ⟨rfl, rfl, fun _ => rfl, fun _ => rfl⟩

end RrhhOptimize
